import Mathlib

/-!
Shallow embedding of the indicator-data resolution layer of
`src/utils/data_source.py`.

The Python module defines `DataSourceManager` twice; the second definition
(from line 422 of the file) shadows the first, so the second class is the
effective implementation and is what is embedded here.  The shadowed first
class is referenced only where a claim's sources point at it.

Modelling conventions:
 - Python dicts with string keys become association lists (`List (String × _)`)
   looked up with `List.lookup`, preserving insertion order (Python dicts are
   ordered, and `_get_region_for_country` iterates in insertion order).
 - `np.random.normal(mu, sigma)` is modelled as drawing the next value from an
   arbitrary rational noise stream carried in `SourceState` (one draw per call
   site execution); the distribution parameters play no role in any claim.
 - A raised Python exception becomes `Except.error`; the `try/except` in
   `fetch_sdg_indicator` becomes a `match` on the dispatched result.
 - Network behaviour of the World Bank adapter is a parameter
   `env : String → Option (List WBRecord)`: for each queried country, `none`
   models any of HTTP failure / non-200 / non-list payload / request
   exception (all of which make the code contribute no rows for that
   country), and `some recs` models a parsed 200 payload whose data slot
   holds `recs`.  Records of a well-formed payload are modelled with their
   `date` already an integer (the code's `int(record.get('date', 0))`).
 - The instrumentation field `adapterCalls` counts adapter invocations
   (network accesses); it is incremented at the dispatch boundary and is not
   part of the translated source text.
-/

/-- One normalized data row, as built by the adapters and the fallback
(`country_code`, `country_name`, `indicator_code`, `year`, `value`,
`source` columns of the emitted records). -/
structure Row where
  country_code : String
  country_name : String
  indicator_code : String
  year : Int
  value : ℚ
  source : String
deriving DecidableEq

/-- One entry of `self.sdg2_indicators` in the effective (second)
`DataSourceManager.__init__`. -/
structure IndicatorInfo where
  name : String
  description : String
  unit : String
  source : String
  code : String
deriving DecidableEq

/-- Errors the resolution layer can raise.  The effective
`fetch_sdg_indicator` raises only `ValueError(f"Unknown SDG indicator: …")`,
the spec's `UnknownIndicatorError`. -/
inductive SdgError where
  | unknownIndicator : String → SdgError
deriving DecidableEq

/-- `self.sdg2_indicators` of the effective class (source lines 446-489). -/
def sdg2_indicators : List (String × IndicatorInfo) :=
  [("2.1.1",
    { name := "Prevalence of undernourishment",
      description := "Percentage of population facing hunger",
      unit := "Percentage", source := "fao", code := "FS_R_NUMD" }),
   ("2.1.2",
    { name := "Prevalence of moderate or severe food insecurity",
      description := "Based on Food Insecurity Experience Scale (FIES)",
      unit := "Percentage", source := "fao", code := "FS_R_INSEC" }),
   ("2.2.1",
    { name := "Prevalence of stunting among children under 5",
      description := "Height-for-age <-2 SD from WHO standards",
      unit := "Percentage", source := "unicef", code := "NUTR_STUNT_MOD" }),
   ("2.2.2a",
    { name := "Prevalence of wasting among children under 5",
      description := "Weight-for-height <-2 SD from WHO standards",
      unit := "Percentage", source := "unicef", code := "NUTR_WAST_MOD" }),
   ("2.2.2b",
    { name := "Prevalence of overweight among children under 5",
      description := "Weight-for-height >+2 SD from WHO standards",
      unit := "Percentage", source := "unicef", code := "NUTR_OVWT_MOD" }),
   ("2.2.3",
    { name := "Prevalence of anaemia in women aged 15-49",
      description := "Reproductive age women with anaemia",
      unit := "Percentage", source := "who", code := "NCD_BMI_30A" })]

/-- `self.regional_groups` (source lines 492-524). -/
def regional_groups : List (String × List String) :=
  [("Sub-Saharan Africa",
    ["AGO", "BEN", "BWA", "BFA", "BDI", "CMR", "CPV", "CAF", "TCD", "COM",
     "COG", "COD", "CIV", "DJI", "GNQ", "ERI", "ETH", "GAB", "GMB", "GHA",
     "GIN", "GNB", "KEN", "LSO", "LBR", "MDG", "MWI", "MLI", "MRT", "MUS",
     "MOZ", "NAM", "NER", "NGA", "RWA", "STP", "SEN", "SYC", "SLE", "SOM",
     "ZAF", "SSD", "SDN", "SWZ", "TZA", "TGO", "UGA", "ZMB", "ZWE"]),
   ("Southern Asia",
    ["AFG", "BGD", "BTN", "IND", "IRN", "MDV", "NPL", "PAK", "LKA"]),
   ("Western Asia",
    ["ARM", "AZE", "BHR", "CYP", "GEO", "IRQ", "ISR", "JOR", "KWT", "LBN",
     "OMN", "QAT", "SAU", "PSE", "SYR", "TUR", "ARE", "YEM"]),
   ("Latin America & Caribbean",
    ["ATG", "ARG", "BHS", "BRB", "BLZ", "BOL", "BRA", "CHL", "COL", "CRI",
     "CUB", "DMA", "DOM", "ECU", "SLV", "GRD", "GTM", "GUY", "HTI", "HND",
     "JAM", "MEX", "NIC", "PAN", "PRY", "PER", "KNA", "LCA", "VCT", "SUR",
     "TTO", "URY", "VEN"]),
   ("Eastern Asia", ["CHN", "PRK", "JPN", "KOR", "MNG"]),
   ("Northern Africa", ["DZA", "EGY", "LBY", "MAR", "SDN", "TUN"]),
   ("Europe & Northern America",
    ["ALB", "AND", "AUT", "BLR", "BEL", "BIH", "BGR", "HRV", "CZE", "DNK",
     "EST", "FIN", "FRA", "DEU", "GRC", "HUN", "ISL", "IRL", "ITA", "LVA",
     "LIE", "LTU", "LUX", "MLT", "MDA", "MCO", "MNE", "NLD", "MKD", "NOR",
     "POL", "PRT", "ROU", "RUS", "SMR", "SRB", "SVK", "SVN", "ESP", "SWE",
     "CHE", "UKR", "GBR", "VAT", "CAN", "USA"]),
   ("Oceania",
    ["AUS", "FJI", "KIR", "MHL", "FSM", "NRU", "NZL", "PLW", "PNG", "WSM",
     "SLB", "TON", "TUV", "VUT"])]

/-- `_get_region_for_country` (source lines 961-966): first region of
`regional_groups` whose member list contains the code, else `"World"`. -/
def get_region_for_country (country_code : String) : String :=
  match regional_groups.find? (fun p => p.2.contains country_code) with
  | some p => p.1
  | none => "World"

/-- The lookup table of `_get_country_name` (source lines 949-959). -/
def country_names : List (String × String) :=
  [("USA", "United States"), ("CHN", "China"), ("IND", "India"),
   ("BRA", "Brazil"), ("RUS", "Russia"), ("IDN", "Indonesia"),
   ("PAK", "Pakistan"), ("BGD", "Bangladesh"), ("NGA", "Nigeria"),
   ("MEX", "Mexico"), ("JPN", "Japan"), ("ETH", "Ethiopia"),
   ("PHL", "Philippines"), ("EGY", "Egypt"), ("VNM", "Vietnam"),
   ("IRN", "Iran"), ("TUR", "Turkey"), ("DEU", "Germany"),
   ("THA", "Thailand"), ("GBR", "United Kingdom"), ("WORLD", "World")]

/-- `_get_country_name` (source lines 949-959): name lookup defaulting to
the code itself. -/
def get_country_name (country_code : String) : String :=
  (country_names.lookup country_code).getD country_code

/-- State threaded through the adapters: a noise stream standing for
`np.random`, a cursor into it, and the instrumentation counter of adapter
invocations (network accesses). -/
structure SourceState where
  rng : Nat → ℚ
  draws : Nat
  adapterCalls : Nat

/-- One `np.random.normal(…)` call: consume the next noise value. -/
def drawNoise (st : SourceState) : ℚ × SourceState :=
  (st.rng st.draws, { st with draws := st.draws + 1 })

/-- `global_stats` of `_get_current_statistics` (source lines 883-890). -/
def global_stats : List (String × ℚ) :=
  [("2.1.1", 9.1), ("2.1.2", 29.1), ("2.2.1", 23.2),
   ("2.2.2a", 6.6), ("2.2.2b", 5.5), ("2.2.3", 29.9)]

/-- `regional_stats` of `_get_current_statistics` (source lines 893-914):
regional breakdowns exist only for indicators 2.1.1 and 2.2.1. -/
def regional_stats : List (String × List (String × ℚ)) :=
  [("2.1.1",
    [("Sub-Saharan Africa", 22.5), ("Southern Asia", 13.1),
     ("Western Asia", 12.2), ("Latin America & Caribbean", 6.5),
     ("Eastern Asia", 1.7), ("Northern Africa", 7.8), ("Oceania", 5.8),
     ("Europe & Northern America", 2.4)]),
   ("2.2.1",
    [("Sub-Saharan Africa", 30.7), ("Southern Asia", 31.7),
     ("Western Asia", 13.8), ("Latin America & Caribbean", 11.3),
     ("Eastern Asia", 4.8), ("Northern Africa", 17.3), ("Oceania", 8.6),
     ("Europe & Northern America", 2.6)])]

/-- Python's `str.replace` for a one-character pattern, on character
lists: every occurrence of `c` is replaced by `r`. -/
def repChar (s : List Char) (c : Char) (r : List Char) : List Char :=
  s.flatMap (fun a => if a = c then r else [a])

/-- `region.upper().replace(' ', '_').replace('&', 'AND')` applied to a
region name when `_get_current_statistics` builds a regional pseudo-code
(upper-casing then two single-character-pattern replacements, spelled out
on the character list). -/
def regionPseudoCode (region : String) : String :=
  ⟨repChar (repChar (region.data.map Char.toUpper) ' ' ['_']) '&' "AND".data⟩

/-- `_get_current_statistics` (source lines 876-941): one global WORLD row
(year 2024, source `'UN Official Statistics'`) followed by one row per
region listed for the indicator in `regional_stats`.  The requested
countries and years play no part. -/
def currentStatistics (indicator : String) : List Row :=
  let current_year : Int := 2024
  let global_value := (global_stats.lookup indicator).getD 15.0
  let worldRow : Row :=
    { country_code := "WORLD", country_name := "World",
      indicator_code := indicator, year := current_year,
      value := global_value, source := "UN Official Statistics" }
  let regionalRows :=
    match regional_stats.lookup indicator with
    | none => []
    | some pairs =>
        pairs.map (fun p =>
          { country_code := regionPseudoCode p.1, country_name := p.1,
            indicator_code := indicator, year := current_year,
            value := p.2, source := "UN Official Statistics" : Row })
  worldRow :: regionalRows

/-- Whether `pat` occurs at the head of `s` (character lists). -/
def leadMatch : List Char → List Char → Bool
  | _, [] => true
  | [], _ :: _ => false
  | a :: as, b :: bs => a == b && leadMatch as bs

/-- Whether `pat` occurs anywhere in `s` (character lists). -/
def hasSub : List Char → List Char → Bool
  | [], pat => pat.isEmpty
  | a :: rest, pat => leadMatch (a :: rest) pat || hasSub rest pat

/-- Python's `pat in s` substring test on strings. -/
def strContains (s pat : String) : Bool :=
  hasSub s.data pat.data

/-- `current_data` of `_fetch_fao_data` (source lines 751-761). -/
def fao_current_data : List (String × ℚ) :=
  [("WORLD", 9.1), ("Sub-Saharan Africa", 22.5), ("Southern Asia", 13.1),
   ("Western Asia", 12.2), ("Latin America & Caribbean", 6.5),
   ("Eastern Asia", 1.7), ("Northern Africa", 7.8), ("Oceania", 5.8),
   ("Europe & Northern America", 2.4)]

/-- The per-country loop of `_fetch_fao_data` (source lines 763-776): for
each country, look up its region's value (default: the WORLD entry, itself
defaulted to 9.1) and emit one row for 2023 and one for 2024, each with a
fresh noise draw added (`value + np.random.normal(0, 0.5)`). -/
def faoLoop (indicator_code : String) : List String → SourceState → List Row × SourceState
  | [], st => ([], st)
  | country :: rest, st =>
      let region_name := get_region_for_country country
      let value :=
        (fao_current_data.lookup region_name).getD
          ((fao_current_data.lookup "WORLD").getD 9.1)
      let d1 := drawNoise st
      let d2 := drawNoise d1.2
      let r1 : Row :=
        { country_code := country, country_name := get_country_name country,
          indicator_code := indicator_code, year := 2023,
          value := value + d1.1, source := "FAO" }
      let r2 : Row :=
        { country_code := country, country_name := get_country_name country,
          indicator_code := indicator_code, year := 2024,
          value := value + d2.1, source := "FAO" }
      let rec1 := faoLoop indicator_code rest d2.2
      (r1 :: r2 :: rec1.1, rec1.2)

/-- `_fetch_fao_data` (source lines 747-778).  The `years` argument is
accepted but unused: the year loop is the literal `[2023, 2024]`. -/
def fetch_fao_data (indicator_code : String) (countries : List String)
    (years : List Int) (st : SourceState) : List Row × SourceState :=
  faoLoop indicator_code countries st

/-- `stunting_data` of `_fetch_unicef_data` (source lines 783-793). -/
def stunting_data : List (String × ℚ) :=
  [("WORLD", 23.2), ("Sub-Saharan Africa", 30.7), ("Southern Asia", 31.7),
   ("Western Asia", 13.8), ("Latin America & Caribbean", 11.3),
   ("Eastern Asia", 4.8), ("Northern Africa", 17.3), ("Oceania", 8.6),
   ("Europe & Northern America", 2.6)]

/-- `wasting_data` of `_fetch_unicef_data` (source lines 795-805). -/
def wasting_data : List (String × ℚ) :=
  [("WORLD", 6.6), ("Sub-Saharan Africa", 7.4), ("Southern Asia", 14.7),
   ("Western Asia", 7.9), ("Latin America & Caribbean", 1.6),
   ("Eastern Asia", 2.4), ("Northern Africa", 8.7), ("Oceania", 3.2),
   ("Europe & Northern America", 0.7)]

/-- `overweight_data` of `_fetch_unicef_data` (source lines 807-817). -/
def overweight_data : List (String × ℚ) :=
  [("WORLD", 5.5), ("Sub-Saharan Africa", 3.2), ("Southern Asia", 2.8),
   ("Western Asia", 8.1), ("Latin America & Caribbean", 7.5),
   ("Eastern Asia", 6.8), ("Northern Africa", 10.2), ("Oceania", 6.1),
   ("Europe & Northern America", 12.3)]

/-- Dataset selection of `_fetch_unicef_data` (source lines 819-825):
`'STUNT' in indicator_code`, then `'WAST' in indicator_code`, else
overweight. -/
def unicefDataset (indicator_code : String) : List (String × ℚ) :=
  if strContains indicator_code "STUNT" then stunting_data
  else if strContains indicator_code "WAST" then wasting_data
  else overweight_data

/-- The per-country loop of `_fetch_unicef_data` (source lines 827-840):
region value (default WORLD entry, itself defaulted to 5.0), rows for 2023
and 2024 with `max(0, value + np.random.normal(0, 0.8))`. -/
def unicefLoop (ds : List (String × ℚ)) (indicator_code : String) :
    List String → SourceState → List Row × SourceState
  | [], st => ([], st)
  | country :: rest, st =>
      let region_name := get_region_for_country country
      let value := (ds.lookup region_name).getD ((ds.lookup "WORLD").getD 5.0)
      let d1 := drawNoise st
      let d2 := drawNoise d1.2
      let r1 : Row :=
        { country_code := country, country_name := get_country_name country,
          indicator_code := indicator_code, year := 2023,
          value := max 0 (value + d1.1), source := "UNICEF" }
      let r2 : Row :=
        { country_code := country, country_name := get_country_name country,
          indicator_code := indicator_code, year := 2024,
          value := max 0 (value + d2.1), source := "UNICEF" }
      let rec1 := unicefLoop ds indicator_code rest d2.2
      (r1 :: r2 :: rec1.1, rec1.2)

/-- `_fetch_unicef_data` (source lines 780-842).  As in the FAO adapter the
`years` argument is unused: the year loop is the literal `[2023, 2024]`. -/
def fetch_unicef_data (indicator_code : String) (countries : List String)
    (years : List Int) (st : SourceState) : List Row × SourceState :=
  unicefLoop (unicefDataset indicator_code) indicator_code countries st

/-- `anemia_data` of `_fetch_who_data` (source lines 847-857). -/
def anemia_data : List (String × ℚ) :=
  [("WORLD", 29.9), ("Sub-Saharan Africa", 46.3), ("Southern Asia", 52.5),
   ("Western Asia", 32.8), ("Latin America & Caribbean", 17.8),
   ("Eastern Asia", 19.2), ("Northern Africa", 34.1), ("Oceania", 25.7),
   ("Europe & Northern America", 12.4)]

/-- The inner year loop of `_fetch_who_data`: one row per year with
`max(5, value + np.random.normal(0, 2.0))`. -/
def whoYearLoop (indicator_code country : String) (value : ℚ) :
    List Int → SourceState → List Row × SourceState
  | [], st => ([], st)
  | year :: rest, st =>
      let d := drawNoise st
      let r : Row :=
        { country_code := country, country_name := get_country_name country,
          indicator_code := indicator_code, year := year,
          value := max 5 (value + d.1), source := "WHO" }
      let rec1 := whoYearLoop indicator_code country value rest d.2
      (r :: rec1.1, rec1.2)

/-- The per-country loop of `_fetch_who_data` (source lines 859-872); the
year loop runs over `years[-3:]`, the last three requested years. -/
def whoLoop (indicator_code : String) (years : List Int) :
    List String → SourceState → List Row × SourceState
  | [], st => ([], st)
  | country :: rest, st =>
      let region_name := get_region_for_country country
      let value :=
        (anemia_data.lookup region_name).getD
          ((anemia_data.lookup "WORLD").getD 29.9)
      let yr :=
        whoYearLoop indicator_code country value
          (years.drop (years.length - 3)) st
      let rec1 := whoLoop indicator_code years rest yr.2
      (yr.1 ++ rec1.1, rec1.2)

/-- `_fetch_who_data` (source lines 844-874). -/
def fetch_who_data (indicator_code : String) (countries : List String)
    (years : List Int) (st : SourceState) : List Row × SourceState :=
  whoLoop indicator_code years countries st

/-- One record of a parsed, well-formed World Bank payload's data slot
(`data[1]`): `countryiso3code` may be absent (the code then substitutes the
queried country), `country.value` is the display name, `date` is modelled
already parsed to an integer (the claim restricts attention to well-formed
responses), `value` is `none` for JSON null. -/
structure WBRecord where
  countryiso3code : Option String
  countryName : String
  date : Int
  value : Option ℚ
deriving DecidableEq

/-- `_fetch_world_bank_data` of the effective class (source lines 713-745):
for each requested country, if the response parsed to a data list, keep
exactly the records whose `value` is non-null, shaped into `Row`s; a `none`
response (HTTP failure, non-200, non-list payload, request exception)
contributes no rows for that country. -/
def fetch_world_bank_data (env : String → Option (List WBRecord))
    (indicator_code : String) (countries : List String)
    (years : List Int) : List Row :=
  countries.flatMap (fun country =>
    match env country with
    | none => []
    | some recs =>
        recs.filterMap (fun r =>
          match r.value with
          | none => none
          | some v =>
              some { country_code := r.countryiso3code.getD country,
                     country_name := r.countryName,
                     indicator_code := indicator_code, year := r.date,
                     value := v, source := "World Bank" : Row }))

/-- The four adapters seen from the resolver's dispatch, as functions that
may fail (a Python exception inside an adapter call is `Except.error ()`).
Abstracting the adapter behaviours lets the resolver theorems quantify over
them and lets a forced `SourceUnavailableError` be expressed. -/
structure Adapters where
  wb : String → List String → List Int → SourceState → Except Unit (List Row) × SourceState
  fao : String → List String → List Int → SourceState → Except Unit (List Row) × SourceState
  unicef : String → List String → List Int → SourceState → Except Unit (List Row) × SourceState
  who : String → List String → List Int → SourceState → Except Unit (List Row) × SourceState

/-- Count one adapter invocation (one network access). -/
def bumpCalls (st : SourceState) : SourceState :=
  { st with adapterCalls := st.adapterCalls + 1 }

/-- The adapters as implemented in the effective class: each invocation is
counted and returns its rows; none of them ever fails.  The World Bank
adapter is parametrised by the response environment. -/
def realAdapters (env : String → Option (List WBRecord)) : Adapters where
  wb := fun code cs ys st =>
    (Except.ok (fetch_world_bank_data env code cs ys), bumpCalls st)
  fao := fun code cs ys st =>
    let pr := fetch_fao_data code cs ys (bumpCalls st)
    (Except.ok pr.1, pr.2)
  unicef := fun code cs ys st =>
    let pr := fetch_unicef_data code cs ys (bumpCalls st)
    (Except.ok pr.1, pr.2)
  who := fun code cs ys st =>
    let pr := fetch_who_data code cs ys (bumpCalls st)
    (Except.ok pr.1, pr.2)

/-- Adapters that always fail: the forced `SourceUnavailableError` of the
spec's fallback scenarios. -/
def failAdapters : Adapters where
  wb := fun _ _ _ st => (Except.error (), st)
  fao := fun _ _ _ st => (Except.error (), st)
  unicef := fun _ _ _ st => (Except.error (), st)
  who := fun _ _ _ st => (Except.error (), st)

/-- The body of the `try` block of `fetch_sdg_indicator` (source lines
696-707): dispatch on the effective source name; an unrecognised name falls
through to `_get_current_statistics` directly. -/
def dispatchFetch (A : Adapters) (info : IndicatorInfo) (indicator : String)
    (cs : List String) (ys : List Int) (data_source : String)
    (st : SourceState) : Except Unit (List Row) × SourceState :=
  if data_source = "world_bank" then A.wb info.code cs ys st
  else if data_source = "fao" then A.fao info.code cs ys st
  else if data_source = "unicef" then A.unicef info.code cs ys st
  else if data_source = "who" then A.who info.code cs ys st
  else (Except.ok (currentStatistics indicator), st)

/-- `years = list(range(2015, 2025))`, the default year list. -/
def defaultYears : List Int :=
  [2015, 2016, 2017, 2018, 2019, 2020, 2021, 2022, 2023, 2024]

/-- `fetch_sdg_indicator` of the effective class (source lines 667-711),
parametrised by the adapter behaviours: validate the indicator (raising
`ValueError` — the spec's `UnknownIndicatorError` — if absent), take the
explicit source override or the registry default, default the countries and
years, dispatch, and absorb any adapter exception by returning
`_get_current_statistics(indicator)`.
The local assignments `data_source = source or indicator_info['source']`,
`countries = countries or ['WORLD']` and `years = years or
list(range(2015, 2025))` are inlined as the `Option.getD` arguments of the
dispatch. -/
def fetchSdgIndicatorWith (A : Adapters) (indicator : String)
    (countries? : Option (List String)) (years? : Option (List Int))
    (source? : Option String) (st : SourceState) :
    Except SdgError (List Row) × SourceState :=
  match sdg2_indicators.lookup indicator with
  | none => (Except.error (SdgError.unknownIndicator indicator), st)
  | some info =>
      ((match (dispatchFetch A info indicator (countries?.getD ["WORLD"])
             (years?.getD defaultYears) (source?.getD info.source) st).1 with
        | Except.ok rows => Except.ok rows
        | Except.error _ => Except.ok (currentStatistics indicator)),
       (dispatchFetch A info indicator (countries?.getD ["WORLD"])
             (years?.getD defaultYears) (source?.getD info.source) st).2)

/-- `get_indicator_metadata` (source lines 943-947): the registry entry for
a known code; for an unknown code the function returns the empty dict `{}`
(modelled `none`) — it does not raise. -/
def get_indicator_metadata (indicator : String) : Option IndicatorInfo :=
  match sdg2_indicators.lookup indicator with
  | some info => some info
  | none => none

/-- The registry entry of indicator `"2.1.1"`, for concrete instances. -/
def info211 : IndicatorInfo :=
  { name := "Prevalence of undernourishment",
    description := "Percentage of population facing hunger",
    unit := "Percentage", source := "fao", code := "FS_R_NUMD" }

/-- A concrete state whose noise stream yields `0, 1, 2, …`: consecutive
draws are pairwise distinct. -/
def st0 : SourceState :=
  { rng := fun n => (n : ℚ), draws := 0, adapterCalls := 0 }

/-- A concrete state whose noise stream is constantly `0`. -/
def stZero : SourceState :=
  { rng := fun _ => 0, draws := 0, adapterCalls := 0 }

/-- A World Bank environment in which no query gets a usable response. -/
def env0 : String → Option (List WBRecord) := fun _ => none

/-- A World Bank environment answering every query with an empty-but-valid
payload (HTTP 200, data slot `[]`). -/
def envEmpty : String → Option (List WBRecord) := fun _ => some []

/-- The rows of a non-raising resolution result (`[]` for an error). -/
def getRows (r : Except SdgError (List Row)) : List Row :=
  match r with
  | Except.ok t => t
  | Except.error _ => []

/-- C10: for every indicator code, country list, years list and state, the
FAO adapter of the effective class returns, in order, exactly two rows per
requested country, bearing years 2023 and 2024 — the `years` argument does
not influence the shape at all (the year loop is the literal
`[2023, 2024]`). -/
theorem c10_fao_fixed_years (indicator_code : String) (countries : List String)
    (years : List Int) (st : SourceState) :
    (fetch_fao_data indicator_code countries years st).1.map
        (fun r => (r.country_code, r.year))
      = countries.flatMap (fun c => [(c, (2023 : Int)), (c, (2024 : Int))]) := by
  unfold fetch_fao_data
  induction countries generalizing st with
  | nil => rfl
  | cons a rest ih =>
      simp only [faoLoop, List.map_cons, List.flatMap_cons, List.cons_append,
        List.nil_append, ih]

/-- C5: a request whose indicator code is absent from the registry fails
with the unknown-indicator error (`ValueError` in the code, the spec's
`UnknownIndicatorError`) and returns the state untouched: no adapter is
invoked (the adapter record `A` is arbitrary and unused; in particular
`adapterCalls` and the noise cursor are unchanged). -/
theorem c5_unknown_indicator_rejected (A : Adapters) (indicator : String)
    (countries? : Option (List String)) (years? : Option (List Int))
    (source? : Option String) (st : SourceState)
    (h : sdg2_indicators.lookup indicator = none) :
    fetchSdgIndicatorWith A indicator countries? years? source? st
      = (Except.error (SdgError.unknownIndicator indicator), st) := by
  simp only [fetchSdgIndicatorWith, h]

/-- Witness for C5 at indicator `"9.9.9"`. -/
theorem c5_unknown_indicator_rejected_witness :
    sdg2_indicators.lookup "9.9.9" = none
    ∧ fetchSdgIndicatorWith failAdapters "9.9.9" none none none stZero
        = (Except.error (SdgError.unknownIndicator "9.9.9"), stZero) :=
  ⟨by decide,
   c5_unknown_indicator_rejected failAdapters "9.9.9" none none none stZero
     (by decide)⟩

/-- C8 counterexample: the claim says `get_indicator_metadata` fails with
`UnknownIndicatorError` on a code absent from the registry; in the code the
function instead returns the empty dict `{}` (modelled `none`) — it is
total and raises nothing, as evaluation at the unknown code `"9.9.9"`
shows. -/
theorem c8_metadata_no_failure_cex : get_indicator_metadata "9.9.9" = none := by
  decide

/-- C8 amended: for every indicator code absent from the registry,
`get_indicator_metadata` returns the empty metadata dict (`none`) rather
than raising an error. -/
theorem c8_metadata_unknown_empty (indicator : String)
    (h : sdg2_indicators.lookup indicator = none) :
    get_indicator_metadata indicator = none := by
  simp only [get_indicator_metadata, h]

/-- Witness for the amended C8 at indicator `"8.8.8"`. -/
theorem c8_metadata_unknown_empty_witness :
    sdg2_indicators.lookup "8.8.8" = none
    ∧ get_indicator_metadata "8.8.8" = none :=
  ⟨by decide, c8_metadata_unknown_empty "8.8.8" (by decide)⟩

/-- C1: once the indicator is known to the registry, resolution is total —
for arbitrary adapter behaviour the result is `Except.ok` of some table —
and whenever the dispatched adapter fails (any exception), the returned
table is exactly the reference-statistics fallback
`_get_current_statistics(indicator)`. -/
theorem c1_resolve_total_and_absorbing (A : Adapters) (indicator : String)
    (info : IndicatorInfo) (countries? : Option (List String))
    (years? : Option (List Int)) (source? : Option String) (st : SourceState)
    (h : sdg2_indicators.lookup indicator = some info) :
    (∃ t st', fetchSdgIndicatorWith A indicator countries? years? source? st
        = (Except.ok t, st'))
    ∧ (∀ e, (dispatchFetch A info indicator (countries?.getD ["WORLD"])
          (years?.getD defaultYears) (source?.getD info.source) st).1
          = Except.error e →
        fetchSdgIndicatorWith A indicator countries? years? source? st
          = (Except.ok (currentStatistics indicator),
             (dispatchFetch A info indicator (countries?.getD ["WORLD"])
               (years?.getD defaultYears) (source?.getD info.source) st).2)) := by
  simp only [fetchSdgIndicatorWith, h]
  rcases hd : (dispatchFetch A info indicator (countries?.getD ["WORLD"])
      (years?.getD defaultYears) (source?.getD info.source) st).1 with e | rows
  · exact ⟨⟨currentStatistics indicator, _, rfl⟩, fun e' _ => rfl⟩
  · exact ⟨⟨rows, _, rfl⟩, fun e' he' => Except.noConfusion he'⟩

/-- Witness for C1: indicator `"2.1.1"` with always-failing adapters. -/
theorem c1_resolve_total_and_absorbing_witness :
    (∃ t st', fetchSdgIndicatorWith failAdapters "2.1.1" none none none stZero
        = (Except.ok t, st'))
    ∧ (∀ e, (dispatchFetch failAdapters info211 "2.1.1"
          ((none : Option (List String)).getD ["WORLD"])
          ((none : Option (List Int)).getD defaultYears)
          ((none : Option String).getD info211.source) stZero).1
          = Except.error e →
        fetchSdgIndicatorWith failAdapters "2.1.1" none none none stZero
          = (Except.ok (currentStatistics "2.1.1"),
             (dispatchFetch failAdapters info211 "2.1.1"
               ((none : Option (List String)).getD ["WORLD"])
               ((none : Option (List Int)).getD defaultYears)
               ((none : Option String).getD info211.source) stZero).2)) :=
  c1_resolve_total_and_absorbing failAdapters "2.1.1" info211 none none none
    stZero (by decide)

/-- C2 counterexample: the claim says `resolve("2.1.1", source="unicef")`
fails with `UnsupportedSourceError`; in the effective class the explicit
override is never validated against the indicator's sources — the call
dispatches to the UNICEF adapter and returns its two WORLD rows (built from
the overweight dataset, since the native code `FS_R_NUMD` mentions neither
`STUNT` nor `WAST`).  No error of any kind is raised. -/
theorem c2_override_not_rejected_cex :
    (fetchSdgIndicatorWith (realAdapters env0) "2.1.1" none none
        (some "unicef") stZero).1
      = Except.ok
        [{ country_code := "WORLD", country_name := "World",
           indicator_code := "FS_R_NUMD", year := 2023,
           value := max 0 (5.5 + 0), source := "UNICEF" },
         { country_code := "WORLD", country_name := "World",
           indicator_code := "FS_R_NUMD", year := 2024,
           value := max 0 (5.5 + 0), source := "UNICEF" }] := rfl

/-- C2 amended: the effective resolve performs no support validation of an
explicit source override — it dispatches to the named source's adapter
unconditionally, so `resolve("2.1.1", source="unicef")` returns exactly the
UNICEF adapter's output on the defaulted request instead of failing with
`UnsupportedSourceError` (that check exists only in the shadowed first
class's `fetch_indicator_data`). -/
theorem c2_override_dispatched_unchecked
    (env : String → Option (List WBRecord)) (st : SourceState) :
    fetchSdgIndicatorWith (realAdapters env) "2.1.1" none none
        (some "unicef") st
      = (Except.ok
          (fetch_unicef_data "FS_R_NUMD" ["WORLD"] defaultYears
            (bumpCalls st)).1,
         (fetch_unicef_data "FS_R_NUMD" ["WORLD"] defaultYears
            (bumpCalls st)).2) := rfl

/-- C3 counterexample: requesting `"2.1.1"` for country `"FRA"`, year 2020,
with a forced source failure.  The result is the fixed fallback table: its
rows carry source label `"UN Official Statistics"`, never
`"Reference Statistics"`, and it contains no row at all for the requested
country `"FRA"` (so not "exactly one row per requested country per
requested year"). -/
theorem c3_fallback_shape_cex :
    (fetchSdgIndicatorWith failAdapters "2.1.1" (some ["FRA"]) (some [2020])
        none stZero).1
      = Except.ok (currentStatistics "2.1.1")
    ∧ ¬ (∀ r ∈ currentStatistics "2.1.1", r.source = "Reference Statistics")
    ∧ ((currentStatistics "2.1.1").filter
        (fun r => r.country_code == "FRA")).length = 0 :=
  ⟨rfl, by decide, by decide⟩

/-- C3 amended: on any adapter failure the resolver returns exactly the
fixed reference table `_get_current_statistics(indicator)` — one WORLD row
plus one row per region listed for the indicator, all with year 2024 —
independent of the requested countries and years; it is non-empty and every
row's source label is `"UN Official Statistics"`. -/
theorem c3_fallback_fixed_table (indicator : String) (info : IndicatorInfo)
    (countries? : Option (List String)) (years? : Option (List Int))
    (st : SourceState)
    (h : sdg2_indicators.lookup indicator = some info) :
    (fetchSdgIndicatorWith failAdapters indicator countries? years? none st).1
        = Except.ok (currentStatistics indicator)
    ∧ currentStatistics indicator ≠ []
    ∧ ∀ r ∈ currentStatistics indicator, r.source = "UN Official Statistics" := by
  refine ⟨?_, ?_, ?_⟩
  · simp only [fetchSdgIndicatorWith, h]
    unfold dispatchFetch
    split_ifs <;> rfl
  · simp [currentStatistics]
  · intro r hr
    simp only [currentStatistics, List.mem_cons] at hr
    rcases hr with h1 | h2
    · subst h1; rfl
    · rcases hlook : regional_stats.lookup indicator with _ | pairs
      · rw [hlook] at h2
        simp at h2
      · rw [hlook] at h2
        simp only [List.mem_map] at h2
        obtain ⟨p, hp, rfl⟩ := h2
        rfl

/-- Witness for the amended C3: indicator `"2.1.1"`, country `"FRA"`, year
2020, forced failure. -/
theorem c3_fallback_fixed_table_witness :
    (fetchSdgIndicatorWith failAdapters "2.1.1" (some ["FRA"]) (some [2020])
        none stZero).1
        = Except.ok (currentStatistics "2.1.1")
    ∧ currentStatistics "2.1.1" ≠ []
    ∧ ∀ r ∈ currentStatistics "2.1.1", r.source = "UN Official Statistics" :=
  c3_fallback_fixed_table "2.1.1" info211 (some ["FRA"]) (some [2020]) stZero
    (by decide)

/-- C6 counterexample: requesting `"2.2.1"` for `"AGO"` with a forced
failure yields the fixed fallback table, whose first row is the global
WORLD row with value 23.2 — not the Sub-Saharan Africa value 30.7 — and
which has no `"AGO"` row at all. -/
theorem c6_regional_fallback_cex :
    (fetchSdgIndicatorWith failAdapters "2.2.1" (some ["AGO"]) (some [2024])
        none stZero).1
      = Except.ok (currentStatistics "2.2.1")
    ∧ (currentStatistics "2.2.1").head?.map Row.value = some 23.2
    ∧ (23.2 : ℚ) ≠ 30.7
    ∧ ((currentStatistics "2.2.1").filter
        (fun r => r.country_code == "AGO")).length = 0 :=
  ⟨rfl, rfl, by norm_num, by decide⟩

/-- C6 amended: `"AGO"` is indeed a member of Sub-Saharan Africa, and under
a forced source failure the resolver returns the fixed fallback table,
which carries the Sub-Saharan Africa reference value 30.7 under the region
pseudo-code row and the global value 23.2 under WORLD, but contains no
`"AGO"` row: the requested country is ignored by the fallback.  The
region membership influences the live adapters instead — the UNICEF
adapter's stunting value for `"AGO"` is based on the Sub-Saharan Africa
reference 30.7. -/
theorem c6_fallback_ignores_requested_country :
    get_region_for_country "AGO" = "Sub-Saharan Africa"
    ∧ (fetchSdgIndicatorWith failAdapters "2.2.1" (some ["AGO"])
        (some [2024]) none stZero).1
        = Except.ok (currentStatistics "2.2.1")
    ∧ ((currentStatistics "2.2.1").filter
        (fun r => r.country_code == "SUB-SAHARAN_AFRICA")).map Row.value
        = [30.7]
    ∧ ((currentStatistics "2.2.1").filter
        (fun r => r.country_code == "WORLD")).map Row.value = [23.2]
    ∧ (currentStatistics "2.2.1").filter (fun r => r.country_code == "AGO")
        = []
    ∧ stunting_data.lookup (get_region_for_country "AGO") = some 30.7
    ∧ (fetch_unicef_data "NUTR_STUNT_MOD" ["AGO"] [2024] stZero).1.map
        Row.value = [max 0 (30.7 + 0), max 0 (30.7 + 0)] :=
  ⟨rfl, rfl, rfl, rfl, rfl, rfl, rfl⟩

/-- C4 counterexample: two consecutive calls of the resolver with identical
arguments, from a state whose noise stream is `0, 1, 2, …`.  The second
call returns different values (the FAO adapter draws fresh noise per row)
and the adapter has been invoked twice — there is no cache in the effective
class, so the second call performs another fetch. -/
theorem c4_no_cache_cex :
    (getRows (fetchSdgIndicatorWith (realAdapters env0) "2.1.1" none none
        none st0).1).map Row.value
      ≠ (getRows (fetchSdgIndicatorWith (realAdapters env0) "2.1.1" none none
        none ((fetchSdgIndicatorWith (realAdapters env0) "2.1.1" none none
          none st0).2)).1).map Row.value
    ∧ ((fetchSdgIndicatorWith (realAdapters env0) "2.1.1" none none none
        ((fetchSdgIndicatorWith (realAdapters env0) "2.1.1" none none none
          st0).2)).2).adapterCalls = 2 := by
  constructor
  · have h1 : (getRows (fetchSdgIndicatorWith (realAdapters env0) "2.1.1"
        none none none st0).1).map Row.value
        = [9.1 + ((0 : ℕ) : ℚ), 9.1 + ((1 : ℕ) : ℚ)] := rfl
    have h2 : (getRows (fetchSdgIndicatorWith (realAdapters env0) "2.1.1"
        none none none ((fetchSdgIndicatorWith (realAdapters env0) "2.1.1"
          none none none st0).2)).1).map Row.value
        = [9.1 + ((2 : ℕ) : ℚ), 9.1 + ((3 : ℕ) : ℚ)] := rfl
    rw [h1, h2]
    norm_num
  · rfl

/-- C4 amended: the effective class has no cache at all — every resolver
call for an FAO-sourced indicator invokes the adapter again, so a repeated
identical call performs a second fetch (one adapter invocation per call,
two after two consecutive identical calls), and the rows carry fresh noise
draws rather than any memoized values. -/
theorem c4_every_call_fetches_again
    (env : String → Option (List WBRecord)) (st : SourceState) :
    ((fetchSdgIndicatorWith (realAdapters env) "2.1.1" none none none
        st).2).adapterCalls = st.adapterCalls + 1
    ∧ ((fetchSdgIndicatorWith (realAdapters env) "2.1.1" none none none
        ((fetchSdgIndicatorWith (realAdapters env) "2.1.1" none none none
          st).2)).2).adapterCalls = st.adapterCalls + 2 :=
  ⟨rfl, rfl⟩

/-- C7 counterexample: a request whose country list repeats `"WORLD"`.  The
adapter emits two rows per occurrence and the resolver performs no
deduplication: the returned table has four rows and the key
`("WORLD", "FS_R_NUMD", 2023)` appears twice, not once. -/
theorem c7_duplicates_kept_cex :
    (getRows (fetchSdgIndicatorWith (realAdapters env0) "2.1.1"
        (some ["WORLD", "WORLD"]) (some [2023]) none stZero).1).length = 4
    ∧ ((getRows (fetchSdgIndicatorWith (realAdapters env0) "2.1.1"
        (some ["WORLD", "WORLD"]) (some [2023]) none stZero).1).filter
        (fun r => r.country_code == "WORLD"
          && r.indicator_code == "FS_R_NUMD"
          && r.year == (2023 : Int))).length = 2 :=
  ⟨rfl, rfl⟩

/-- C7 amended: the resolver returns the adapter output as-is — no
deduplication and no sorting — so the table contains as many rows with key
`(c, native code, 2023)` as the request's country list contains occurrences
of `c`; duplicated request countries yield duplicated key rows. -/
theorem c7_no_normalization :
    (∀ (env : String → Option (List WBRecord)) (st : SourceState)
        (cs : List String) (ys : List Int),
      (fetchSdgIndicatorWith (realAdapters env) "2.1.1" (some cs) (some ys)
          none st).1
        = Except.ok (fetch_fao_data "FS_R_NUMD" cs ys (bumpCalls st)).1)
    ∧ (∀ (code : String) (cs : List String) (ys : List Int)
        (st : SourceState) (c : String),
      ((fetch_fao_data code cs ys st).1.filter
          (fun r => r.country_code == c && r.year == (2023 : Int))).length
        = cs.count c) := by
  constructor
  · intro env st cs ys
    rfl
  · intro code cs ys st c
    unfold fetch_fao_data
    induction cs generalizing st with
    | nil => simp [faoLoop]
    | cons a rest ih =>
        simp only [faoLoop, List.filter_cons]
        by_cases hac : a = c
        · subst hac
          simp [List.count_cons, ih]
        · simp [List.count_cons, hac, ih]

/-- The length of the World Bank adapter's per-country row list equals the
number of records whose value is non-null. -/
theorem wbFilterMap_length (ic c : String) (recs : List WBRecord) :
    (recs.filterMap (fun r =>
      match r.value with
      | none => none
      | some v =>
          some { country_code := r.countryiso3code.getD c,
                 country_name := r.countryName, indicator_code := ic,
                 year := r.date, value := v, source := "World Bank" : Row })).length
      = recs.countP (fun r => r.value.isSome) := by
  induction recs with
  | nil => rfl
  | cons r rest ih =>
      cases hv : r.value <;>
        simp [List.filterMap_cons, List.countP_cons, hv, ih]

/-- C9: for well-formed World Bank responses, the adapter emits exactly one
row per record with a non-null value (every null-valued record is omitted,
and no placeholder rows appear: each emitted row's value comes from some
record), and an empty-but-valid payload for every queried country yields
the empty table rather than an error. -/
theorem c9_wb_drops_nulls (env : String → Option (List WBRecord))
    (indicator_code : String) (countries : List String) (years : List Int) :
    ((fetch_world_bank_data env indicator_code countries years).length
        = (countries.map (fun c =>
            ((env c).getD []).countP (fun r => r.value.isSome))).sum)
    ∧ (∀ row ∈ fetch_world_bank_data env indicator_code countries years,
        ∃ c ∈ countries, ∃ rec ∈ (env c).getD [], rec.value = some row.value)
    ∧ ((∀ c ∈ countries, env c = some []) →
        fetch_world_bank_data env indicator_code countries years = []) := by
  refine ⟨?_, ?_, ?_⟩
  · induction countries with
    | nil => rfl
    | cons a rest ih =>
        simp only [fetch_world_bank_data, List.flatMap_cons, List.map_cons,
          List.sum_cons, List.length_append] at ih ⊢
        rcases henv : env a with _ | recs
        · simpa using ih
        · simp only [Option.getD_some, wbFilterMap_length]
          rw [ih]
  · intro row hrow
    simp only [fetch_world_bank_data, List.mem_flatMap] at hrow
    obtain ⟨c, hc, hrc⟩ := hrow
    rcases henv : env c with _ | recs
    · rw [henv] at hrc
      simp at hrc
    · rw [henv] at hrc
      simp only [List.mem_filterMap] at hrc
      obtain ⟨rec, hrec, hf⟩ := hrc
      refine ⟨c, hc, rec, by rw [henv]; exact hrec, ?_⟩
      rcases hv : rec.value with _ | v
      · rw [hv] at hf
        cases hf
      · rw [hv] at hf
        cases hf
        rfl
  · intro h
    induction countries with
    | nil => rfl
    | cons a rest ih =>
        simp only [fetch_world_bank_data, List.flatMap_cons] at ih ⊢
        rw [h a (List.mem_cons_self a rest)]
        simpa using ih fun c hc => h c (List.mem_cons_of_mem a hc)

/-- Witness for C9: the environment answering every query with an
empty-but-valid payload yields the empty table. -/
theorem c9_wb_drops_nulls_witness :
    ((fetch_world_bank_data envEmpty "NUTR_STUNT_MOD" ["USA"] []).length
        = ((["USA"].map (fun c =>
            ((envEmpty c).getD []).countP (fun r => r.value.isSome))).sum))
    ∧ (∀ row ∈ fetch_world_bank_data envEmpty "NUTR_STUNT_MOD" ["USA"] [],
        ∃ c ∈ ["USA"], ∃ rec ∈ (envEmpty c).getD [],
          rec.value = some row.value)
    ∧ fetch_world_bank_data envEmpty "NUTR_STUNT_MOD" ["USA"] [] = [] :=
  ⟨(c9_wb_drops_nulls envEmpty "NUTR_STUNT_MOD" ["USA"] []).1,
   (c9_wb_drops_nulls envEmpty "NUTR_STUNT_MOD" ["USA"] []).2.1,
   (c9_wb_drops_nulls envEmpty "NUTR_STUNT_MOD" ["USA"] []).2.2 (by decide)⟩
